import Mathlib

/-!
Shallow embedding of the oai-proxy quota-accounting core:
tier classification (src/lib/models.ts), the SQLite-backed ledger and
history (src/lib/database.ts), the admission/accounting pipeline
(src/lib/proxy.ts) and the reconciliation algorithm
(src/lib/reconciliation.ts).  Machine numbers are modelled as `Int`
(JavaScript numbers at the integral values the code uses); the wall
clock and the SQLite store are passed explicitly; exceptions are
modelled with `Except` / explicit state threading.
-/

namespace OaiProxy

/-- The two quota tiers (src/types: `type ModelTier = 'premium' | 'mini'`). -/
inductive ModelTier where
  | premium
  | mini
deriving DecidableEq, Repr

/-- Premium tier model-name prefixes (src/lib/models.ts `PREMIUM_MODELS`). -/
def PREMIUM_MODELS : List String :=
  ["gpt-5", "gpt-5-codex", "gpt-5-chat-latest", "gpt-4.1", "gpt-4o", "o1", "o3"]

/-- Mini tier model-name prefixes (src/lib/models.ts `MINI_MODELS`). -/
def MINI_MODELS : List String :=
  ["gpt-5-mini", "gpt-5-nano", "gpt-4.1-mini", "gpt-4.1-nano", "gpt-4o-mini",
   "o1-mini", "o3-mini", "o4-mini", "codex-mini-latest"]

/-- JavaScript `s.startsWith(p)`: the characters of `p` are a prefix of
the characters of `s`. -/
def strStartsWith (s p : String) : Bool :=
  p.data.isPrefixOf s.data

/-- Tier classifier (src/lib/models.ts `getModelTier`): checks the premium
list first, then the mini list, defaulting to premium. -/
def getModelTier (model : String) : ModelTier :=
  if PREMIUM_MODELS.any (fun p => strStartsWith model p) then ModelTier.premium
  else if MINI_MODELS.any (fun p => strStartsWith model p) then ModelTier.mini
  else ModelTier.premium

/-- String form of a tier as it is interpolated into messages. -/
def tierName : ModelTier → String
  | ModelTier.premium => "premium"
  | ModelTier.mini => "mini"

/-- Environment configuration fields the core reads (src/lib/config.ts). -/
structure EnvConfig where
  PREMIUM_TIER_LIMIT : Int
  MINI_TIER_LIMIT : Int
deriving DecidableEq, Repr

/-- A row of the `usage_records` table (src/types `UsageRecord`). -/
structure UsageRecord where
  tier : ModelTier
  date : String
  tokens_used : Int
  limit : Int
deriving DecidableEq, Repr

/-- A row of the `request_history` table (src/types `RequestHistory`,
without the store-assigned `id`). -/
structure HistoryEntry where
  timestamp : String
  model : String
  prompt_tokens : Int
  completion_tokens : Int
  total_tokens : Int
  request_path : String
  status : Int
  tier : ModelTier
deriving DecidableEq, Repr

/-- The SQLite store state the core touches: the `current_date` config
row (absent before first initialisation), at most one `usage_records`
row per tier, and the `request_history` rows in insertion order. -/
structure DbState where
  current_date : Option String
  premium : Option UsageRecord
  mini : Option UsageRecord
  history : List HistoryEntry
deriving DecidableEq, Repr

/-- `SELECT * FROM usage_records WHERE tier = ?`
(src/lib/database.ts `getUsageRecord`). -/
def getUsageRecord (st : DbState) (tier : ModelTier) : Option UsageRecord :=
  match tier with
  | ModelTier.premium => st.premium
  | ModelTier.mini => st.mini

/-- `INSERT ... ON CONFLICT(tier) DO UPDATE SET date, tokens_used, "limit"`
(src/lib/database.ts `upsertUsageRecord`): the row keyed by the record's
tier is replaced wholesale. -/
def upsertUsageRecord (record : UsageRecord) (st : DbState) : DbState :=
  match record.tier with
  | ModelTier.premium => { st with premium := some record }
  | ModelTier.mini => { st with mini := some record }

/-- `UPDATE usage_records SET tokens_used = tokens_used + ? WHERE tier = ?`
(src/lib/database.ts `incrementTokens`): adds to the `tokens_used` column
of the row keyed by `tier`; a no-op when the row is absent. -/
def incrementTokens (tier : ModelTier) (tokens : Int) (st : DbState) : DbState :=
  match tier with
  | ModelTier.premium =>
    match st.premium with
    | none => st
    | some r => { st with premium := some { r with tokens_used := r.tokens_used + tokens } }
  | ModelTier.mini =>
    match st.mini with
    | none => st
    | some r => { st with mini := some { r with tokens_used := r.tokens_used + tokens } }

/-- src/lib/database.ts `resetUsageRecord`: upserts a fresh record for
`tier` with `tokens_used = 0`, today's date, and the currently configured
tier limit. -/
def resetUsageRecord (config : EnvConfig) (today : String) (tier : ModelTier)
    (st : DbState) : DbState :=
  let lim := match tier with
    | ModelTier.premium => config.PREMIUM_TIER_LIMIT
    | ModelTier.mini => config.MINI_TIER_LIMIT
  upsertUsageRecord { tier := tier, date := today, tokens_used := 0, limit := lim } st

/-- src/lib/database.ts `checkAndResetDaily`: compares the stored
`current_date` config value with the current UTC date (`today`,
threaded in explicitly); on mismatch resets both tiers and stores the
new date, returning `true`; otherwise returns `false` unchanged. -/
def checkAndResetDaily (config : EnvConfig) (today : String) (st : DbState) :
    Bool × DbState :=
  if st.current_date ≠ some today then
    let st1 := resetUsageRecord config today ModelTier.premium st
    let st2 := resetUsageRecord config today ModelTier.mini st1
    (true, { st2 with current_date := some today })
  else
    (false, st)

/-- `INSERT INTO request_history ...` (src/lib/database.ts
`addRequestHistory`). -/
def addRequestHistory (entry : HistoryEntry) (st : DbState) : DbState :=
  { st with history := st.history ++ [entry] }

/-- The `usage` object of an upstream completion response
(src/types `OpenAIUsage`). -/
structure OpenAIUsage where
  prompt_tokens : Int
  completion_tokens : Int
  total_tokens : Int
deriving DecidableEq, Repr

/-- Shape of what `proxyRequest` hands back to the client: either the
upstream body passed through with the upstream status, or one of the
`c.json({error: {message, type}}, status)` error payloads. -/
inductive ProxyResponse where
  | passthrough (status : Int)
  | errorJson (status : Int) (message : String) (etype : String)
deriving DecidableEq, Repr

/-- Outcome of the admission phase of `proxyRequest` (src/lib/proxy.ts
lines 47-90): client error, uninitialised-store error, quota denial, or
permission to forward carrying the resolved tier. -/
inductive AdmitDecision where
  | clientError (message : String)
  | serverError (message : String)
  | deny (message : String)
  | allow (tier : ModelTier)
deriving DecidableEq, Repr

/-- The denial text built at src/lib/proxy.ts line 78. -/
def denyMessage (tier : ModelTier) (used lim : Int) : String :=
  "Daily limit for " ++ tierName tier ++ " tier exceeded (" ++ toString used ++
    "/" ++ toString lim ++ " tokens). Resets at 00:00 UTC."

/-- Admission phase of `proxyRequest` (src/lib/proxy.ts lines 47-90),
after the `checkAndResetDaily()` call and body parse: a missing (or, per
JavaScript falsiness, empty) `model` field is a client input error;
otherwise the model is classified, the tier's usage row read, and the
request denied exactly when `tokens_used >= limit`. -/
def admitRequest (model : Option String) (st : DbState) : AdmitDecision :=
  match model with
  | none => AdmitDecision.clientError "Model parameter is required"
  | some m =>
    if m.isEmpty then AdmitDecision.clientError "Model parameter is required"
    else
      let tier := getModelTier m
      match getUsageRecord st tier with
      | none => AdmitDecision.serverError "Usage tracking not initialized"
      | some r =>
        if r.tokens_used ≥ r.limit then
          AdmitDecision.deny (denyMessage tier r.tokens_used r.limit)
        else AdmitDecision.allow tier

/-- Post-forward phase of `proxyRequest` (src/lib/proxy.ts lines
110-176) for a response already received from upstream.  A streaming
request passes the body through untouched.  A non-streaming response
with a usage object of positive `total_tokens` increments the tier's
counter and appends a history entry; `appendOk` models whether the
store's history insert succeeds — when it throws, the exception falls
into the surrounding catch block, which answers the client with the
generic 500 `server_error` payload (the increment already applied is
kept). -/
def handleForwarded (tier : ModelTier) (model path timestamp : String)
    (isStreaming : Bool) (status : Int) (usage : Option OpenAIUsage)
    (appendOk : Bool) (st : DbState) : ProxyResponse × DbState :=
  if isStreaming then
    (ProxyResponse.passthrough status, st)
  else
    match usage with
    | some u =>
      if u.total_tokens > 0 then
        let st1 := incrementTokens tier u.total_tokens st
        if appendOk then
          let st2 := addRequestHistory
            { timestamp := timestamp, model := model,
              prompt_tokens := u.prompt_tokens,
              completion_tokens := u.completion_tokens,
              total_tokens := u.total_tokens, request_path := path,
              status := status, tier := tier } st1
          (ProxyResponse.passthrough status, st2)
        else
          (ProxyResponse.errorJson 500 "Failed to proxy request to OpenAI API"
            "server_error", st1)
      else (ProxyResponse.passthrough status, st)
    | none => (ProxyResponse.passthrough status, st)

/-- One `(day, model)` aggregate row of the upstream usage report
(src/lib/reconciliation.ts `UsageResult`, the fields the algorithm
reads). -/
structure UsageResult where
  model : String
  input_tokens : Int
  output_tokens : Int
  num_model_requests : Int
deriving DecidableEq, Repr

/-- One time bucket of a report page (src/lib/reconciliation.ts
`UsageBucket`). -/
structure UsageBucket where
  results : List UsageResult
deriving DecidableEq, Repr

/-- One page of the upstream report (src/lib/reconciliation.ts
`UsageResponse`). -/
structure UsageResponse where
  data : List UsageBucket
  next_page : Option String
deriving DecidableEq, Repr

/-- The rows a page contributes: `data.forEach(bucket =>
allResults.push(...bucket.results))`. -/
def pageRows (p : UsageResponse) : List UsageResult :=
  p.data.foldl (fun acc b => acc ++ b.results) []

/-- The `do ... while (nextPage)` pagination loop of `fetchOpenAIUsage`
(src/lib/reconciliation.ts lines 94-186).  The upstream endpoint is
modelled as the sequence of responses the successive fetches would
receive: each element is either a page or a fetch failure (non-ok
status, network error).  Running out of modelled responses while a
cursor is still pending is likewise a fetch failure. -/
def fetchPagesLoop : List (Except String UsageResponse) → List UsageResult →
    Except String (List UsageResult)
  | [], _ => Except.error "Failed to fetch usage from OpenAI"
  | Except.error e :: _, _ => Except.error e
  | Except.ok page :: rest, acc =>
    let acc2 := acc ++ pageRows page
    match page.next_page with
    | none => Except.ok acc2
    | some _ => fetchPagesLoop rest acc2

/-- src/lib/reconciliation.ts `fetchOpenAIUsage`: starts the pagination
loop with an empty accumulator. -/
def fetchOpenAIUsage (pages : List (Except String UsageResponse)) :
    Except String (List UsageResult) :=
  fetchPagesLoop pages []

/-- The `tierTotals[tier] += input_tokens + output_tokens` accumulation
of `reconcileUsage` (src/lib/reconciliation.ts lines 259-289), as the
pair (premium total, mini total). -/
def accumulateTierTotals (results : List UsageResult) : Int × Int :=
  results.foldl
    (fun tot r =>
      let t := r.input_tokens + r.output_tokens
      match getModelTier r.model with
      | ModelTier.premium => (tot.1 + t, tot.2)
      | ModelTier.mini => (tot.1, tot.2 + t))
    (0, 0)

/-- Per-tier slice of a reconciliation result. -/
structure TierDelta where
  before : Int
  after : Int
  added : Int
deriving DecidableEq, Repr

/-- Return value of `reconcileUsage`. -/
structure ReconcileResult where
  success : Bool
  date : String
  premium : TierDelta
  mini : TierDelta
  details : List String
deriving DecidableEq, Repr

/-- src/lib/reconciliation.ts `reconcileUsage`, with the store state
threaded explicitly (an `Except.error` models the function throwing,
and is paired with the store state as it stands at the throw).  Reads
the before values, fetches the report following pagination, sums
per-tier totals, computes `diff = max(0, upstream - before)` per tier,
increments only positive diffs, and re-reads for the after values. -/
def reconcileUsage (targetDate : String)
    (pages : List (Except String UsageResponse)) (st : DbState) :
    Except String ReconcileResult × DbState :=
  match getUsageRecord st ModelTier.premium, getUsageRecord st ModelTier.mini with
  | some premiumBefore, some miniBefore =>
    match fetchOpenAIUsage pages with
    | Except.error e => (Except.error e, st)
    | Except.ok results =>
      let totals := accumulateTierTotals results
      let details := results.map (fun r =>
        r.model ++ " (" ++ tierName (getModelTier r.model) ++ "): " ++
          toString (r.input_tokens + r.output_tokens) ++ " tokens")
      let premiumDiff := max 0 (totals.1 - premiumBefore.tokens_used)
      let miniDiff := max 0 (totals.2 - miniBefore.tokens_used)
      let st1 := if premiumDiff > 0 then incrementTokens ModelTier.premium premiumDiff st else st
      let st2 := if miniDiff > 0 then incrementTokens ModelTier.mini miniDiff st1 else st1
      let premiumAfter := ((getUsageRecord st2 ModelTier.premium).map
        (fun r => r.tokens_used)).getD 0
      let miniAfter := ((getUsageRecord st2 ModelTier.mini).map
        (fun r => r.tokens_used)).getD 0
      (Except.ok
        { success := true, date := targetDate,
          premium := { before := premiumBefore.tokens_used,
                       after := premiumAfter, added := premiumDiff },
          mini := { before := miniBefore.tokens_used,
                    after := miniAfter, added := miniDiff },
          details := details }, st2)
  | _, _ => (Except.error "Usage records not initialized", st)

lemma incrementTokens_premium (tokens : Int) (st : DbState) (r : UsageRecord)
    (h : st.premium = some r) :
    incrementTokens ModelTier.premium tokens st =
      { st with premium := some { r with tokens_used := r.tokens_used + tokens } } := by
  simp [incrementTokens, h]

lemma incrementTokens_mini (tokens : Int) (st : DbState) (r : UsageRecord)
    (h : st.mini = some r) :
    incrementTokens ModelTier.mini tokens st =
      { st with mini := some { r with tokens_used := r.tokens_used + tokens } } := by
  simp [incrementTokens, h]

/-- The `details` strings built by `reconcileUsage`. -/
def reconcileDetails (results : List UsageResult) : List String :=
  results.map (fun r =>
    r.model ++ " (" ++ tierName (getModelTier r.model) ++ "): " ++
      toString (r.input_tokens + r.output_tokens) ++ " tokens")

/-- Characterisation of a successful reconciliation run: with both
usage rows present and the paginated fetch succeeding, the result and
the final store state are determined by the correction rule
`diff = max 0 (upstream - before)` applied independently per tier. -/
lemma reconcileUsage_ok (date : String) (pages : List (Except String UsageResponse))
    (st : DbState) (pr mr : UsageRecord) (results : List UsageResult)
    (hp : st.premium = some pr) (hm : st.mini = some mr)
    (hf : fetchOpenAIUsage pages = Except.ok results) :
    reconcileUsage date pages st =
      (Except.ok
        { success := true, date := date,
          premium :=
            { before := pr.tokens_used,
              after := pr.tokens_used +
                max 0 ((accumulateTierTotals results).1 - pr.tokens_used),
              added := max 0 ((accumulateTierTotals results).1 - pr.tokens_used) },
          mini :=
            { before := mr.tokens_used,
              after := mr.tokens_used +
                max 0 ((accumulateTierTotals results).2 - mr.tokens_used),
              added := max 0 ((accumulateTierTotals results).2 - mr.tokens_used) },
          details := reconcileDetails results },
       { st with
          premium := some { pr with tokens_used :=
            (pr.tokens_used + max 0 ((accumulateTierTotals results).1 - pr.tokens_used)) },
          mini := some { mr with tokens_used :=
            (mr.tokens_used + max 0 ((accumulateTierTotals results).2 - mr.tokens_used)) } }) := by
  have hpd : 0 ≤ max 0 ((accumulateTierTotals results).1 - pr.tokens_used) :=
    le_max_left _ _
  have hmd : 0 ≤ max 0 ((accumulateTierTotals results).2 - mr.tokens_used) :=
    le_max_left _ _
  obtain ⟨cd, p, m, hist⟩ := st
  simp only at hp hm
  subst hp
  subst hm
  by_cases h1 : max 0 ((accumulateTierTotals results).1 - pr.tokens_used) > 0 <;>
    by_cases h2 : max 0 ((accumulateTierTotals results).2 - mr.tokens_used) > 0 <;>
    simp only [reconcileUsage, getUsageRecord, hf, reconcileDetails,
      h1, h2, if_true, if_false, incrementTokens, Option.map_some, Option.getD_some] <;>
    first
    | rfl
    | (have e1 : max 0 ((accumulateTierTotals results).1 - pr.tokens_used) = 0 := by omega
       have e2 : max 0 ((accumulateTierTotals results).2 - mr.tokens_used) = 0 := by omega
       simp_all)
    | (have e1 : max 0 ((accumulateTierTotals results).1 - pr.tokens_used) = 0 := by omega
       simp_all)
    | (have e2 : max 0 ((accumulateTierTotals results).2 - mr.tokens_used) = 0 := by omega
       simp_all)

/-- A well-formed cursor chain of report pages: every page except the
last carries a `next_page` cursor, and the last page does not. -/
def cursorChain : List UsageResponse → Bool
  | [] => false
  | [p] => p.next_page.isNone
  | p :: rest => p.next_page.isSome && cursorChain rest

lemma fetchPagesLoop_chain (ps : List UsageResponse) (acc : List UsageResult)
    (h : cursorChain ps = true) :
    fetchPagesLoop (ps.map Except.ok) acc =
      Except.ok (acc ++ (ps.map pageRows).flatten) := by
  induction ps generalizing acc with
  | nil => simp [cursorChain] at h
  | cons pg rest ih =>
    cases rest with
    | nil =>
      simp only [cursorChain, Option.isNone_iff_eq_none] at h
      simp [fetchPagesLoop, h]
    | cons q tail =>
      simp only [cursorChain, Bool.and_eq_true, Option.isSome_iff_exists] at h
      obtain ⟨⟨c, hc⟩, hrest⟩ := h
      have h2 := ih (acc ++ pageRows pg) hrest
      simp only [List.map_cons, fetchPagesLoop] at h2
      simp only [List.map_cons, fetchPagesLoop, hc]
      rw [h2]
      simp [List.append_assoc]

lemma reconcileUsage_fetch_error (date : String)
    (pages : List (Except String UsageResponse)) (st : DbState)
    (pr mr : UsageRecord) (e : String)
    (hp : st.premium = some pr) (hm : st.mini = some mr)
    (hf : fetchOpenAIUsage pages = Except.error e) :
    reconcileUsage date pages st = (Except.error e, st) := by
  simp [reconcileUsage, getUsageRecord, hp, hm, hf]

/-- Claim C1 is refuted by the code: `getModelTier` tests the premium
prefix list before the mini list, so a model name that is itself an
entry of `MINI_MODELS` — and hence begins with a mini-tier prefix —
still classifies as premium whenever it also starts with a (shorter)
premium prefix.  Witnessed by `"gpt-4o-mini"` and `"gpt-5-mini"`,
which the repository's own documentation assigns to the mini tier. -/
theorem c1_mini_prefix_misclassified :
    "gpt-4o-mini" ∈ MINI_MODELS ∧ "gpt-5-mini" ∈ MINI_MODELS ∧
    strStartsWith "gpt-4o-mini" "gpt-4o-mini" = true ∧
    strStartsWith "gpt-5-mini" "gpt-5-mini" = true ∧
    getModelTier "gpt-4o-mini" = ModelTier.premium ∧
    getModelTier "gpt-5-mini" = ModelTier.premium := by
  decide

/-- Claim C5: `checkAndResetDaily` returns `true`, resets both tiers'
`tokens_used` to 0 and advances the stored ledger date to the current
UTC date exactly when the stored date differs from it; when the dates
agree it returns `false` and leaves the store untouched; consequently a
second call within the same UTC day (whatever operation triggers it) is
a no-op returning `false`. -/
theorem c5_rollover_date_compare (config : EnvConfig) (today : String) (st : DbState) :
    (st.current_date ≠ some today →
      checkAndResetDaily config today st =
        (true,
         { current_date := some today,
           premium := some { tier := ModelTier.premium, date := today,
                             tokens_used := 0, limit := config.PREMIUM_TIER_LIMIT },
           mini := some { tier := ModelTier.mini, date := today,
                          tokens_used := 0, limit := config.MINI_TIER_LIMIT },
           history := st.history })) ∧
    (st.current_date = some today → checkAndResetDaily config today st = (false, st)) ∧
    checkAndResetDaily config today (checkAndResetDaily config today st).2 =
      (false, (checkAndResetDaily config today st).2) := by
  refine ⟨?_, ?_, ?_⟩
  · intro h
    simp [checkAndResetDaily, h, resetUsageRecord, upsertUsageRecord]
  · intro h
    simp [checkAndResetDaily, h]
  · by_cases h : st.current_date = some today
    · simp [checkAndResetDaily, h]
    · simp [checkAndResetDaily, h, resetUsageRecord, upsertUsageRecord]

/-- Witness for C5 at a concrete day-boundary crossing: stored date
`2025-01-14`, current UTC date `2025-01-15`. -/
theorem c5_rollover_date_compare_witness :
    checkAndResetDaily ⟨1000000, 10000000⟩ "2025-01-15"
        { current_date := some "2025-01-14",
          premium := some ⟨ModelTier.premium, "2025-01-14", 250000, 1000000⟩,
          mini := some ⟨ModelTier.mini, "2025-01-14", 42, 10000000⟩,
          history := [] } =
      (true,
       { current_date := some "2025-01-15",
         premium := some ⟨ModelTier.premium, "2025-01-15", 0, 1000000⟩,
         mini := some ⟨ModelTier.mini, "2025-01-15", 0, 10000000⟩,
         history := [] }) ∧
    checkAndResetDaily ⟨1000000, 10000000⟩ "2025-01-15"
        { current_date := some "2025-01-15",
          premium := some ⟨ModelTier.premium, "2025-01-15", 0, 1000000⟩,
          mini := some ⟨ModelTier.mini, "2025-01-15", 0, 10000000⟩,
          history := [] } =
      (false,
       { current_date := some "2025-01-15",
         premium := some ⟨ModelTier.premium, "2025-01-15", 0, 1000000⟩,
         mini := some ⟨ModelTier.mini, "2025-01-15", 0, 10000000⟩,
         history := [] }) :=
  ⟨(c5_rollover_date_compare ⟨1000000, 10000000⟩ "2025-01-15" _).1 (by decide),
   (c5_rollover_date_compare ⟨1000000, 10000000⟩ "2025-01-15" _).2.1 (by decide)⟩

/-- Claim C7: a streaming request performs no counter increment and
appends no history entry, whatever the upstream status, the usage
object, or the store's behaviour: the response is passed through and
the store state is returned unchanged. -/
theorem c7_streaming_no_accounting (tier : ModelTier) (model path ts : String)
    (status : Int) (usage : Option OpenAIUsage) (appendOk : Bool) (st : DbState) :
    handleForwarded tier model path ts true status usage appendOk st =
      (ProxyResponse.passthrough status, st) :=
  rfl

/-- Claim C10 (implicit): a rollover overwrites each tier's stored
`limit` with the currently configured tier limit, while the other
store-mutating operations of the core — token increments, history
appends, and reconciliation — never touch the stored limits, so a
changed configured limit takes effect only at the next rollover. -/
theorem c10_limit_refresh_only_at_rollover (config : EnvConfig) (today : String)
    (st : DbState) (tier : ModelTier) (tokens : Int) (entry : HistoryEntry)
    (date : String) (pages : List (Except String UsageResponse))
    (hroll : st.current_date ≠ some today) :
    ((checkAndResetDaily config today st).2.premium.map (fun r => r.limit) =
        some config.PREMIUM_TIER_LIMIT ∧
     (checkAndResetDaily config today st).2.mini.map (fun r => r.limit) =
        some config.MINI_TIER_LIMIT) ∧
    ((incrementTokens tier tokens st).premium.map (fun r => r.limit) =
        st.premium.map (fun r => r.limit) ∧
     (incrementTokens tier tokens st).mini.map (fun r => r.limit) =
        st.mini.map (fun r => r.limit)) ∧
    ((addRequestHistory entry st).premium = st.premium ∧
     (addRequestHistory entry st).mini = st.mini) ∧
    ((reconcileUsage date pages st).2.premium.map (fun r => r.limit) =
        st.premium.map (fun r => r.limit) ∧
     (reconcileUsage date pages st).2.mini.map (fun r => r.limit) =
        st.mini.map (fun r => r.limit)) := by
  refine ⟨?_, ?_, ⟨rfl, rfl⟩, ?_⟩
  · simp [checkAndResetDaily, hroll, resetUsageRecord, upsertUsageRecord]
  · cases tier with
    | premium => cases hp : st.premium <;> simp [incrementTokens, hp]
    | mini => cases hm : st.mini <;> simp [incrementTokens, hm]
  · cases hp : st.premium with
    | none => simp [reconcileUsage, getUsageRecord, hp]
    | some pr =>
      cases hm : st.mini with
      | none => simp [reconcileUsage, getUsageRecord, hp, hm]
      | some mr =>
        cases hf : fetchOpenAIUsage pages with
        | error e =>
          rw [reconcileUsage_fetch_error date pages st pr mr e hp hm hf]
          simp [hp, hm]
        | ok results =>
          rw [reconcileUsage_ok date pages st pr mr results hp hm hf]
          simp [hp, hm]

/-- Claim C2: the correction a reconciliation run adds to each tier's
counter equals `max 0 (upstream_total - before)`, where `before` is the
counter read prior to correction and `upstream_total` is that tier's sum
over the fetched report; `after = before + added`, so reconciliation
never decreases a counter, and when the local counter already meets or
exceeds the upstream total the run adds 0 and leaves it unchanged. -/
theorem c2_correction_never_decreases (date : String)
    (pages : List (Except String UsageResponse)) (st : DbState)
    (pr mr : UsageRecord) (results : List UsageResult)
    (res : ReconcileResult) (st' : DbState)
    (hp : st.premium = some pr) (hm : st.mini = some mr)
    (hf : fetchOpenAIUsage pages = Except.ok results)
    (hrun : reconcileUsage date pages st = (Except.ok res, st')) :
    res.premium.added = max 0 ((accumulateTierTotals results).1 - pr.tokens_used) ∧
    res.mini.added = max 0 ((accumulateTierTotals results).2 - mr.tokens_used) ∧
    res.premium.before = pr.tokens_used ∧
    res.mini.before = mr.tokens_used ∧
    res.premium.after = res.premium.before + res.premium.added ∧
    res.mini.after = res.mini.before + res.mini.added ∧
    res.premium.before ≤ res.premium.after ∧
    res.mini.before ≤ res.mini.after ∧
    ((accumulateTierTotals results).1 ≤ pr.tokens_used →
      res.premium.added = 0 ∧ res.premium.after = pr.tokens_used) ∧
    ((accumulateTierTotals results).2 ≤ mr.tokens_used →
      res.mini.added = 0 ∧ res.mini.after = mr.tokens_used) := by
  rw [reconcileUsage_ok date pages st pr mr results hp hm hf, Prod.mk.injEq,
    Except.ok.injEq] at hrun
  obtain ⟨hres, -⟩ := hrun
  subst hres
  refine ⟨rfl, rfl, rfl, rfl, rfl, rfl,
    le_add_of_nonneg_right (le_max_left _ _),
    le_add_of_nonneg_right (le_max_left _ _), ?_, ?_⟩
  · intro h
    have hz : max 0 ((accumulateTierTotals results).1 - pr.tokens_used) = 0 :=
      max_eq_left (by omega)
    exact ⟨hz, by simp [hz]⟩
  · intro h
    have hz : max 0 ((accumulateTierTotals results).2 - mr.tokens_used) = 0 :=
      max_eq_left (by omega)
    exact ⟨hz, by simp [hz]⟩

/-- Concrete state for the C2 witness: both counters at 500. -/
def c2State : DbState :=
  { current_date := some "2025-01-15",
    premium := some ⟨ModelTier.premium, "2025-01-15", 500, 1000000⟩,
    mini := some ⟨ModelTier.mini, "2025-01-15", 500, 10000000⟩,
    history := [] }

/-- One-page upstream report for the C2 witness: 300 premium tokens
(input 200, output 100) reported for model `gpt-4o`. -/
def c2Pages : List (Except String UsageResponse) :=
  [Except.ok ⟨[⟨[⟨"gpt-4o", 200, 100, 3⟩]⟩], none⟩]

/-- The reconciliation result for the C2 witness run. -/
def c2Res : ReconcileResult :=
  { success := true, date := "2025-01-15",
    premium := { before := 500, after := 500, added := 0 },
    mini := { before := 500, after := 500, added := 0 },
    details := ["gpt-4o (premium): 300 tokens"] }

/-- Witness for C2: the spec's scenario — local counter 500, upstream
total 300 — yields `added = 0` and `after = 500`. -/
theorem c2_correction_never_decreases_witness :
    reconcileUsage "2025-01-15" c2Pages c2State = (Except.ok c2Res, c2State) ∧
    c2Res.premium.added = 0 ∧ c2Res.premium.after = 500 := by
  refine ⟨rfl, ?_⟩
  have h := c2_correction_never_decreases "2025-01-15" c2Pages c2State
    ⟨ModelTier.premium, "2025-01-15", 500, 1000000⟩
    ⟨ModelTier.mini, "2025-01-15", 500, 10000000⟩
    [⟨"gpt-4o", 200, 100, 3⟩]
    c2Res c2State rfl rfl rfl rfl
  obtain ⟨-, -, -, -, -, -, -, -, h9, -⟩ := h
  have h2 := h9 (by decide)
  exact ⟨h2.1, h2.2⟩

/-- Claim C4: the pagination loop follows the cursor chain to
completion, returning the concatenation of every page's rows, and a
fetch failure on any page makes the whole reconciliation run return
that error with the store state untouched — no correction computed from
earlier pages is applied. -/
theorem c4_pagination_and_abort :
    (∀ ps : List UsageResponse, cursorChain ps = true →
      fetchOpenAIUsage (ps.map Except.ok) =
        Except.ok ((ps.map pageRows).flatten)) ∧
    (∀ (date : String) (pages : List (Except String UsageResponse)) (st : DbState)
       (pr mr : UsageRecord) (e : String),
      st.premium = some pr → st.mini = some mr →
      fetchOpenAIUsage pages = Except.error e →
      reconcileUsage date pages st = (Except.error e, st)) := by
  constructor
  · intro ps h
    simpa [fetchOpenAIUsage] using fetchPagesLoop_chain ps [] h
  · intro date pages st pr mr e hp hm hf
    exact reconcileUsage_fetch_error date pages st pr mr e hp hm hf

/-- First report page for the C4 witness, carrying a cursor. -/
def c4Page1 : UsageResponse :=
  ⟨[⟨[⟨"gpt-4o", 1, 2, 1⟩]⟩], some "cursor-1"⟩

/-- Final report page for the C4 witness, with no further cursor. -/
def c4Page2 : UsageResponse :=
  ⟨[⟨[⟨"o4-mini", 3, 4, 1⟩]⟩], none⟩

/-- Concrete store state for the C4 witness. -/
def c4State : DbState :=
  { current_date := some "2025-01-15",
    premium := some ⟨ModelTier.premium, "2025-01-15", 7, 1000000⟩,
    mini := some ⟨ModelTier.mini, "2025-01-15", 8, 10000000⟩,
    history := [] }

/-- Witness for C4: a two-page chain is followed to completion and its
rows accumulated; a failure on the second page aborts the run and
leaves the store untouched. -/
theorem c4_pagination_and_abort_witness :
    fetchOpenAIUsage ([c4Page1, c4Page2].map Except.ok) =
      Except.ok (([c4Page1, c4Page2].map pageRows).flatten) ∧
    reconcileUsage "2025-01-15" [Except.ok c4Page1, Except.error "auth failure"]
        c4State = (Except.error "auth failure", c4State) :=
  ⟨c4_pagination_and_abort.1 [c4Page1, c4Page2] (by decide),
   c4_pagination_and_abort.2 "2025-01-15"
     [Except.ok c4Page1, Except.error "auth failure"] c4State
     ⟨ModelTier.premium, "2025-01-15", 7, 1000000⟩
     ⟨ModelTier.mini, "2025-01-15", 8, 10000000⟩ "auth failure" rfl rfl rfl⟩

/-- Claim C8: reconciliation is idempotent against an unchanged
upstream report: after a successful run, a second run for the same date
over the same report yields `added = 0` for both tiers, `after =
before`, and leaves the whole store state unchanged. -/
theorem c8_reconcile_idempotent (date : String)
    (pages : List (Except String UsageResponse)) (st : DbState)
    (pr mr : UsageRecord) (res1 : ReconcileResult) (st1 : DbState)
    (hp : st.premium = some pr) (hm : st.mini = some mr)
    (h1 : reconcileUsage date pages st = (Except.ok res1, st1)) :
    ∃ res2 : ReconcileResult,
      reconcileUsage date pages st1 = (Except.ok res2, st1) ∧
      res2.premium.added = 0 ∧ res2.mini.added = 0 ∧
      res2.premium.after = res2.premium.before ∧
      res2.mini.after = res2.mini.before := by
  obtain ⟨cd, p, m, hist⟩ := st
  simp only at hp hm
  subst hp
  subst hm
  cases hf : fetchOpenAIUsage pages with
  | error e =>
    rw [reconcileUsage_fetch_error date pages _ pr mr e rfl rfl hf] at h1
    simp at h1
  | ok results =>
    rw [reconcileUsage_ok date pages _ pr mr results rfl rfl hf, Prod.mk.injEq] at h1
    obtain ⟨-, hst⟩ := h1
    have hz1 : max 0 ((accumulateTierTotals results).1 -
        (pr.tokens_used + max 0 ((accumulateTierTotals results).1 - pr.tokens_used))) = 0 :=
      max_eq_left (by
        have := le_max_right 0 ((accumulateTierTotals results).1 - pr.tokens_used)
        omega)
    have hz2 : max 0 ((accumulateTierTotals results).2 -
        (mr.tokens_used + max 0 ((accumulateTierTotals results).2 - mr.tokens_used))) = 0 :=
      max_eq_left (by
        have := le_max_right 0 ((accumulateTierTotals results).2 - mr.tokens_used)
        omega)
    have h2 := reconcileUsage_ok date pages
      { current_date := cd,
        premium := some { pr with tokens_used :=
          (pr.tokens_used + max 0 ((accumulateTierTotals results).1 - pr.tokens_used)) },
        mini := some { mr with tokens_used :=
          (mr.tokens_used + max 0 ((accumulateTierTotals results).2 - mr.tokens_used)) },
        history := hist }
      { pr with tokens_used :=
          (pr.tokens_used + max 0 ((accumulateTierTotals results).1 - pr.tokens_used)) }
      { mr with tokens_used :=
          (mr.tokens_used + max 0 ((accumulateTierTotals results).2 - mr.tokens_used)) }
      results rfl rfl hf
    simp only [hz1, hz2, add_zero] at h2
    rw [← hst]
    exact ⟨_, h2, rfl, rfl, rfl, rfl⟩

/-- Concrete state for the C8 witness: both counters at 0. -/
def c8State : DbState :=
  { current_date := some "2025-01-15",
    premium := some ⟨ModelTier.premium, "2025-01-15", 0, 1000000⟩,
    mini := some ⟨ModelTier.mini, "2025-01-15", 0, 10000000⟩,
    history := [] }

/-- One-page upstream report for the C8 witness. -/
def c8Pages : List (Except String UsageResponse) :=
  [Except.ok ⟨[⟨[⟨"gpt-4o", 60, 40, 2⟩]⟩], none⟩]

/-- Witness for C8 at a concrete first run that added 100 tokens. -/
theorem c8_reconcile_idempotent_witness :
    ∃ res2 : ReconcileResult,
      reconcileUsage "2025-01-15" c8Pages
          { current_date := some "2025-01-15",
            premium := some ⟨ModelTier.premium, "2025-01-15", 100, 1000000⟩,
            mini := some ⟨ModelTier.mini, "2025-01-15", 0, 10000000⟩,
            history := [] } =
        (Except.ok res2,
         { current_date := some "2025-01-15",
           premium := some ⟨ModelTier.premium, "2025-01-15", 100, 1000000⟩,
           mini := some ⟨ModelTier.mini, "2025-01-15", 0, 10000000⟩,
           history := [] }) ∧
      res2.premium.added = 0 ∧ res2.mini.added = 0 ∧
      res2.premium.after = res2.premium.before ∧
      res2.mini.after = res2.mini.before :=
  c8_reconcile_idempotent "2025-01-15" c8Pages c8State
    ⟨ModelTier.premium, "2025-01-15", 0, 1000000⟩
    ⟨ModelTier.mini, "2025-01-15", 0, 10000000⟩
    { success := true, date := "2025-01-15",
      premium := { before := 0, after := 100, added := 100 },
      mini := { before := 0, after := 0, added := 0 },
      details := ["gpt-4o (premium): 100 tokens"] }
    { current_date := some "2025-01-15",
      premium := some ⟨ModelTier.premium, "2025-01-15", 100, 1000000⟩,
      mini := some ⟨ModelTier.mini, "2025-01-15", 0, 10000000⟩,
      history := [] }
    rfl rfl rfl

/-- Claim C3: with the model field present (and non-empty, which
JavaScript treats as missing) and the classified tier's usage row
initialised, admission denies exactly when the row's
`tokens_used >= limit`; the denial message names the tier, the current
usage, the limit and the fixed 00:00 UTC reset time; otherwise the
request is allowed carrying the resolved tier. -/
theorem c3_admission_deny_iff (m : String) (st : DbState) (r : UsageRecord)
    (hm : m.isEmpty = false)
    (hr : getUsageRecord st (getModelTier m) = some r) :
    (admitRequest (some m) st =
        AdmitDecision.deny (denyMessage (getModelTier m) r.tokens_used r.limit) ↔
      r.tokens_used ≥ r.limit) ∧
    (r.tokens_used < r.limit →
      admitRequest (some m) st = AdmitDecision.allow (getModelTier m)) ∧
    ((tierName (getModelTier m)).data <:+:
        (denyMessage (getModelTier m) r.tokens_used r.limit).data ∧
     (toString r.tokens_used).data <:+:
        (denyMessage (getModelTier m) r.tokens_used r.limit).data ∧
     (toString r.limit).data <:+:
        (denyMessage (getModelTier m) r.tokens_used r.limit).data ∧
     ("00:00 UTC" : String).data <:+:
        (denyMessage (getModelTier m) r.tokens_used r.limit).data) := by
  refine ⟨?_, ?_, ?_, ?_, ?_, ?_⟩
  · by_cases hge : r.tokens_used ≥ r.limit <;>
      simp [admitRequest, hm, hr, hge]
  · intro hlt
    simp [admitRequest, hm, hr, not_le.mpr hlt]
  · exact ⟨"Daily limit for ".data,
      (" tier exceeded (" ++ toString r.tokens_used ++ "/" ++ toString r.limit ++
        " tokens). Resets at 00:00 UTC.").data,
      by simp [denyMessage, String.data_append, List.append_assoc]⟩
  · exact ⟨("Daily limit for " ++ tierName (getModelTier m) ++ " tier exceeded (").data,
      ("/" ++ toString r.limit ++ " tokens). Resets at 00:00 UTC.").data,
      by simp [denyMessage, String.data_append, List.append_assoc]⟩
  · exact ⟨("Daily limit for " ++ tierName (getModelTier m) ++ " tier exceeded (" ++
        toString r.tokens_used ++ "/").data,
      (" tokens). Resets at 00:00 UTC.").data,
      by simp [denyMessage, String.data_append, List.append_assoc]⟩
  · have h1 : ("00:00 UTC" : String).data <:+:
        (" tokens). Resets at 00:00 UTC." : String).data := by decide
    have h2 : (" tokens). Resets at 00:00 UTC." : String).data <:+
        (denyMessage (getModelTier m) r.tokens_used r.limit).data :=
      ⟨("Daily limit for " ++ tierName (getModelTier m) ++ " tier exceeded (" ++
          toString r.tokens_used ++ "/" ++ toString r.limit).data,
        by simp [denyMessage, String.data_append, List.append_assoc]⟩
    exact h1.trans h2.isInfix

/-- Witness for C3: a premium model at exactly its limit is denied with
the interpolated message; a mini model under its limit is allowed. -/
theorem c3_admission_deny_iff_witness :
    admitRequest (some "gpt-4o")
        { current_date := some "2025-01-15",
          premium := some ⟨ModelTier.premium, "2025-01-15", 1000000, 1000000⟩,
          mini := some ⟨ModelTier.mini, "2025-01-15", 0, 10000000⟩,
          history := [] } =
      AdmitDecision.deny (denyMessage (getModelTier "gpt-4o") 1000000 1000000) ∧
    admitRequest (some "o4-mini")
        { current_date := some "2025-01-15",
          premium := some ⟨ModelTier.premium, "2025-01-15", 1000000, 1000000⟩,
          mini := some ⟨ModelTier.mini, "2025-01-15", 0, 10000000⟩,
          history := [] } =
      AdmitDecision.allow (getModelTier "o4-mini") :=
  ⟨(c3_admission_deny_iff "gpt-4o" _ ⟨ModelTier.premium, "2025-01-15", 1000000, 1000000⟩
      (by decide) (by decide)).1.mpr (by decide),
   (c3_admission_deny_iff "o4-mini" _ ⟨ModelTier.mini, "2025-01-15", 0, 10000000⟩
      (by decide) (by decide)).2.1 (by decide)⟩

/-- Claim C6: for a non-streaming response whose body carries a usage
object with positive `total_tokens` (and a history insert that
succeeds), the tier's counter grows by exactly `total_tokens` and
exactly one history entry with matching fields is appended; when the
usage object is absent or `total_tokens <= 0`, neither the counter nor
the history changes. -/
theorem c6_nonstreaming_roundtrip (tier : ModelTier) (model path ts : String)
    (status : Int) (u : OpenAIUsage) (st : DbState) (r : UsageRecord)
    (hr : getUsageRecord st tier = some r) :
    (u.total_tokens > 0 →
      (getUsageRecord
          (handleForwarded tier model path ts false status (some u) true st).2 tier).map
            (fun x => x.tokens_used) = some (r.tokens_used + u.total_tokens) ∧
      (handleForwarded tier model path ts false status (some u) true st).2.history =
        st.history ++ [{ timestamp := ts, model := model,
                         prompt_tokens := u.prompt_tokens,
                         completion_tokens := u.completion_tokens,
                         total_tokens := u.total_tokens, request_path := path,
                         status := status, tier := tier }] ∧
      (handleForwarded tier model path ts false status (some u) true st).1 =
        ProxyResponse.passthrough status) ∧
    (u.total_tokens ≤ 0 →
      handleForwarded tier model path ts false status (some u) true st =
        (ProxyResponse.passthrough status, st)) ∧
    handleForwarded tier model path ts false status none true st =
      (ProxyResponse.passthrough status, st) := by
  refine ⟨?_, ?_, rfl⟩
  · intro h
    cases tier with
    | premium =>
      simp only [getUsageRecord] at hr
      simp [handleForwarded, h, addRequestHistory, incrementTokens, hr, getUsageRecord]
    | mini =>
      simp only [getUsageRecord] at hr
      simp [handleForwarded, h, addRequestHistory, incrementTokens, hr, getUsageRecord]
  · intro h
    simp [handleForwarded, not_lt.mpr h]

/-- Witness for C6: the spec's concrete round-trip — usage
`{prompt := 100, completion := 50, total := 150}` on the premium tier
raises the premium counter from 0 to exactly 150 and appends exactly
one matching entry. -/
theorem c6_nonstreaming_roundtrip_witness :
    (getUsageRecord
        (handleForwarded ModelTier.premium "gpt-4o" "/v1/chat/completions"
          "2025-01-15T12:00:00.000Z" false 200 (some ⟨100, 50, 150⟩) true
          { current_date := some "2025-01-15",
            premium := some ⟨ModelTier.premium, "2025-01-15", 0, 1000000⟩,
            mini := some ⟨ModelTier.mini, "2025-01-15", 0, 10000000⟩,
            history := [] }).2 ModelTier.premium).map (fun x => x.tokens_used) =
      some 150 ∧
    (handleForwarded ModelTier.premium "gpt-4o" "/v1/chat/completions"
        "2025-01-15T12:00:00.000Z" false 200 (some ⟨100, 50, 150⟩) true
        { current_date := some "2025-01-15",
          premium := some ⟨ModelTier.premium, "2025-01-15", 0, 1000000⟩,
          mini := some ⟨ModelTier.mini, "2025-01-15", 0, 10000000⟩,
          history := [] }).2.history =
      [] ++ [{ timestamp := "2025-01-15T12:00:00.000Z", model := "gpt-4o",
               prompt_tokens := 100, completion_tokens := 50, total_tokens := 150,
               request_path := "/v1/chat/completions", status := 200,
               tier := ModelTier.premium }] := by
  have h := (c6_nonstreaming_roundtrip ModelTier.premium "gpt-4o" "/v1/chat/completions"
    "2025-01-15T12:00:00.000Z" 200 ⟨100, 50, 150⟩
    { current_date := some "2025-01-15",
      premium := some ⟨ModelTier.premium, "2025-01-15", 0, 1000000⟩,
      mini := some ⟨ModelTier.mini, "2025-01-15", 0, 10000000⟩,
      history := [] } ⟨ModelTier.premium, "2025-01-15", 0, 1000000⟩ rfl).1 (by decide)
  exact ⟨h.1, h.2.1⟩

/-- Concrete store state for the C9 refutation. -/
def c9State : DbState :=
  { current_date := some "2025-01-15",
    premium := some ⟨ModelTier.premium, "2025-01-15", 0, 1000000⟩,
    mini := some ⟨ModelTier.mini, "2025-01-15", 0, 10000000⟩,
    history := [] }

/-- Claim C9 is refuted by the code: a history append that fails after
a successful increment throws inside `proxyRequest`'s single try/catch,
so the client receives the same generic 500 `server_error` payload used
for upstream forward failures — the error IS turned into a failed
response, with no distinct accounting-inconsistency signal — while the
increment is kept (counter at 150, history still empty). -/
theorem c9_history_failure_counterexample :
    (handleForwarded ModelTier.premium "gpt-4o" "/v1/chat/completions"
        "2025-01-15T12:00:00.000Z" false 200 (some ⟨100, 50, 150⟩) false c9State).1 =
      ProxyResponse.errorJson 500 "Failed to proxy request to OpenAI API"
        "server_error" ∧
    (handleForwarded ModelTier.premium "gpt-4o" "/v1/chat/completions"
        "2025-01-15T12:00:00.000Z" false 200 (some ⟨100, 50, 150⟩) false c9State).1 ≠
      ProxyResponse.passthrough 200 ∧
    (handleForwarded ModelTier.premium "gpt-4o" "/v1/chat/completions"
        "2025-01-15T12:00:00.000Z" false 200 (some ⟨100, 50, 150⟩) false
        c9State).2.premium.map (fun x => x.tokens_used) = some 150 ∧
    (handleForwarded ModelTier.premium "gpt-4o" "/v1/chat/completions"
        "2025-01-15T12:00:00.000Z" false 200 (some ⟨100, 50, 150⟩) false
        c9State).2.history = [] := by
  decide

/-- Claim C9 as amended: when the history append fails after a
successful increment on a billable non-streaming response, the
exception propagates to the generic catch handler, the client receives
the 500 "Failed to proxy request to OpenAI API" `server_error` response
(indistinguishable from an upstream forward failure), and the already
applied increment is retained, leaving Ledger and History inconsistent. -/
theorem c9_history_failure_amended (tier : ModelTier) (model path ts : String)
    (status : Int) (u : OpenAIUsage) (st : DbState) (hu : u.total_tokens > 0) :
    handleForwarded tier model path ts false status (some u) false st =
      (ProxyResponse.errorJson 500 "Failed to proxy request to OpenAI API"
         "server_error",
       incrementTokens tier u.total_tokens st) := by
  simp [handleForwarded, hu]

/-- Witness for the amended C9 at the concrete inputs of the
counterexample. -/
theorem c9_history_failure_amended_witness :
    handleForwarded ModelTier.mini "gpt-4o-mini" "/v1/chat/completions"
        "2025-01-15T12:00:00.000Z" false 200 (some ⟨10, 20, 30⟩) false c9State =
      (ProxyResponse.errorJson 500 "Failed to proxy request to OpenAI API"
         "server_error",
       incrementTokens ModelTier.mini 30 c9State) :=
  c9_history_failure_amended ModelTier.mini "gpt-4o-mini" "/v1/chat/completions"
    "2025-01-15T12:00:00.000Z" 200 ⟨10, 20, 30⟩ c9State (by decide)

/-- Witness for C10 at a concrete state and operations. -/
theorem c10_limit_refresh_only_at_rollover_witness :
    ((checkAndResetDaily ⟨777, 888⟩ "2025-01-15"
        { current_date := some "2025-01-14",
          premium := some ⟨ModelTier.premium, "2025-01-14", 3, 1000000⟩,
          mini := some ⟨ModelTier.mini, "2025-01-14", 4, 10000000⟩,
          history := [] }).2.premium.map (fun r => r.limit) = some 777 ∧
     (checkAndResetDaily ⟨777, 888⟩ "2025-01-15"
        { current_date := some "2025-01-14",
          premium := some ⟨ModelTier.premium, "2025-01-14", 3, 1000000⟩,
          mini := some ⟨ModelTier.mini, "2025-01-14", 4, 10000000⟩,
          history := [] }).2.mini.map (fun r => r.limit) = some 888) ∧
    ((incrementTokens ModelTier.premium 5
        { current_date := some "2025-01-14",
          premium := some ⟨ModelTier.premium, "2025-01-14", 3, 1000000⟩,
          mini := some ⟨ModelTier.mini, "2025-01-14", 4, 10000000⟩,
          history := [] }).premium.map (fun r => r.limit) = some 1000000 ∧
     (incrementTokens ModelTier.premium 5
        { current_date := some "2025-01-14",
          premium := some ⟨ModelTier.premium, "2025-01-14", 3, 1000000⟩,
          mini := some ⟨ModelTier.mini, "2025-01-14", 4, 10000000⟩,
          history := [] }).mini.map (fun r => r.limit) = some 10000000) := by
  have h := c10_limit_refresh_only_at_rollover ⟨777, 888⟩ "2025-01-15"
    { current_date := some "2025-01-14",
      premium := some ⟨ModelTier.premium, "2025-01-14", 3, 1000000⟩,
      mini := some ⟨ModelTier.mini, "2025-01-14", 4, 10000000⟩,
      history := [] } ModelTier.premium 5
    ⟨"t", "m", 1, 2, 3, "/v1/x", 200, ModelTier.premium⟩ "2025-01-14" [] (by decide)
  exact ⟨h.1, by simpa using h.2.1⟩

end OaiProxy
